import Mathlib

/-!
Shallow embedding of the chat backend (`main.py`, FastAPI + SQLAlchemy over
SQLite) and of the Flask microblog (`server.py`).  Database tables are lists
of rows; `Query.first()` is `List.find?`; mutating the row object returned by
`first()` and committing is `updateFirst`; `db.delete` is `List.eraseP`.
An endpoint returns an `ApiResult`: `ok` carries the response value and the
committed database, `httpError` models a raised `HTTPException` (the session
is rolled back, so it carries the unchanged database), and `crash` models an
unhandled Python exception such as an `AttributeError` on `None` (again with
the unchanged database, since nothing was committed).
SQLite `INTEGER PRIMARY KEY` autoincrement is modelled by `freshId`, which
always returns an id strictly greater than every existing id (hence ≥ 1).
Non-deterministic environment inputs (the current time `datetime.utcnow()`,
the `uuid.uuid4()` token string) are passed as explicit parameters.
-/

set_option autoImplicit false

namespace Chat

/-- Row of the `users` table of `main.py`.  `username` and `display_name` are
`Option String` because `/update-profile` can write SQL `NULL` into them. -/
structure UserRow where
  id : Nat
  username : Option String
  display_name : Option String
  password : String
  profile_picture : Option String
  last_active : Option Nat
  online : Bool
deriving Repr, DecidableEq

/-- Row of the `tokens` table of `main.py`. -/
structure TokenRow where
  id : Nat
  user_id : Nat
  token : String
deriving Repr, DecidableEq

/-- Row of the `alternate_profiles` table of `main.py`. -/
structure AlternateRow where
  id : Nat
  user_id : Nat
  name : String
  icon : Option String
deriving Repr, DecidableEq

/-- Row of the `servers` table of `main.py`. -/
structure ServerRow where
  id : Nat
  name : String
deriving Repr, DecidableEq

/-- Row of the `channels` table of `main.py`. -/
structure ChannelRow where
  id : Nat
  name : String
  server_id : Nat
deriving Repr, DecidableEq

/-- Row of the `messages` table of `main.py`.  The WebSocket handler never
sets `server_id`, and `content` comes from `data.get("content")`, which may be
`None`; both are therefore `Option`-typed. -/
structure MessageRow where
  id : Nat
  user_id : Nat
  server_id : Option Nat
  channel_id : Nat
  content : Option String
  timestamp : Nat
  is_action : Bool
  is_edited : Bool
  alternate_id : Nat
deriving Repr, DecidableEq

/-- Row of the `private_messages` table of `main.py`. -/
structure PrivateMessageRow where
  id : Nat
  sender_id : Nat
  receiver_id : Nat
  content : String
  timestamp : Nat
  is_edited : Bool
deriving Repr, DecidableEq

/-- The whole SQLite database of `main.py`. -/
structure DB where
  users : List UserRow
  tokens : List TokenRow
  alternates : List AlternateRow
  servers : List ServerRow
  channels : List ChannelRow
  messages : List MessageRow
  private_messages : List PrivateMessageRow
deriving Repr, DecidableEq

/-- Result of one HTTP endpoint call: committed success, a raised
`HTTPException(status_code, detail)` (rolled back), or an unhandled Python
exception (also rolled back, reported to the client as a 500). -/
inductive ApiResult (α : Type) where
  | ok : α → DB → ApiResult α
  | httpError : Nat → String → DB → ApiResult α
  | crash : String → DB → ApiResult α
deriving Repr, DecidableEq

/-- SQLite `INTEGER PRIMARY KEY` autoincrement: one more than the largest
existing id (so the first id is 1, and 0 is never assigned). -/
def freshId (ids : List Nat) : Nat :=
  ids.foldr max 0 + 1

/-- Mutate the first row matching `p` (the row returned by `Query.first()`),
leaving all other rows unchanged. -/
def updateFirst {α : Type} (p : α → Bool) (f : α → α) : List α → List α
  | [] => []
  | x :: xs => if p x then f x :: xs else x :: updateFirst p f xs

/-- `update_user_activity` of `main.py`: look the user up by username and, if
found, set `last_active` to now and `online` to `True`, then commit. -/
def update_user_activity (db : DB) (username : String) (now : Nat) : DB :=
  { db with users :=
      updateFirst (fun u => u.username == some username)
                  (fun u => { u with last_active := some now, online := true }) db.users }

/-- `POST /register` of `main.py`: reject an existing username with a 400,
otherwise insert a `User` row storing the supplied password string unchanged. -/
def register (db : DB) (username password display_name : String) :
    ApiResult Nat :=
  match db.users.find? (fun u => u.username == some username) with
  | some _ => .httpError 400 "Username already exists" db
  | none =>
      let uid := freshId (db.users.map (·.id))
      .ok uid { db with users :=
        db.users ++ [⟨uid, some username, some display_name, password, none, none, false⟩] }

/-- `POST /login` of `main.py`: find a user whose `username` and `password`
columns both equal the request fields; on failure raise 400; on success update
activity, then insert one `Token` row bound to the user's id carrying the
freshly generated `uuid4` string `tok`. -/
def login (db : DB) (username password : String) (now : Nat) (tok : String) :
    ApiResult String :=
  match db.users.find?
      (fun u => u.username == some username && u.password == password) with
  | none => .httpError 400 "Invalid credentials" db
  | some user =>
      let db1 := update_user_activity db username now
      let tid := freshId (db1.tokens.map (·.id))
      .ok tok { db1 with tokens := db1.tokens ++ [⟨tid, user.id, tok⟩] }

/-- `POST /get-self` of `main.py`.  The code runs
`db.query(Token).filter(Token.token == request['token']).first().user_id`:
when no token row matches, `first()` is `None` and the attribute access raises
an `AttributeError` (an unhandled 500), not an `HTTPException`.  The same
happens on the `user` object when the referenced user row is missing. -/
def get_self (db : DB) (token : String) :
    ApiResult (Option String × Nat × Option String × String) :=
  match db.tokens.find? (fun t => t.token == token) with
  | none => .crash "AttributeError: NoneType has no attribute user_id" db
  | some t =>
      match db.users.find? (fun u => u.id == t.user_id) with
      | none => .crash "AttributeError: NoneType has no attribute username" db
      | some user =>
          .ok (user.username, user.id, user.display_name,
               user.profile_picture.getD "hidden.png") db

/-- `POST /logout` of `main.py`: 400 on an unknown token string; otherwise
delete that token row, set the owner's `online` flag to `False`, and commit.
If the owner row is missing the handler raises 400 before `commit()`, so the
pending deletion rolls back and the database is unchanged. -/
def logout (db : DB) (token : String) : ApiResult String :=
  match db.tokens.find? (fun t => t.token == token) with
  | none => .httpError 400 "Invalid token" db
  | some t =>
      match db.users.find? (fun u => u.id == t.user_id) with
      | none => .httpError 400 "User not found" db
      | some _ =>
          .ok "Logged out"
            { db with
              tokens := db.tokens.eraseP (fun x => x.token == token),
              users := updateFirst (fun u => u.id == t.user_id)
                (fun u => { u with online := false }) db.users }

/-- `POST /create-server` of `main.py`: unconditionally insert a `Server`
row; the request model carries only `name`, no token or identity. -/
def create_server (db : DB) (name : String) : ApiResult Nat :=
  let sid := freshId (db.servers.map (·.id))
  .ok sid { db with servers := db.servers ++ [⟨sid, name⟩] }

/-- `POST /create-channel` of `main.py`: 400 when the referenced server id
does not exist, otherwise insert a `Channel` row; no caller-identity check. -/
def create_channel (db : DB) (server_id : Nat) (name : String) : ApiResult Nat :=
  match db.servers.find? (fun s => s.id == server_id) with
  | none => .httpError 400 "Server not found" db
  | some _ =>
      let cid := freshId (db.channels.map (·.id))
      .ok cid { db with channels := db.channels ++ [⟨cid, name, server_id⟩] }

/-- `POST /update-profile` of `main.py`.  `username` and `display_name` are
optional query parameters defaulting to `None`.  The token lookup uses
`.first().user_id`, so an unknown token raises an `AttributeError` (crash).
Each field guard compares against the empty string only: a `None` value
passes the `!= ""` test and is written into the column. -/
def update_profile (db : DB) (token : String)
    (username display_name : Option String) : ApiResult String :=
  match db.tokens.find? (fun t => t.token == token) with
  | none => .crash "AttributeError: NoneType has no attribute user_id" db
  | some t =>
      match db.users.find? (fun u => u.id == t.user_id) with
      | none => .httpError 400 "User not found" db
      | some _ =>
          let setFields : UserRow → UserRow := fun u =>
            let u1 := if username ≠ some "" then { u with username := username } else u
            if display_name ≠ some "" then { u1 with display_name := display_name } else u1
          .ok "Profile updated"
            { db with users := updateFirst (fun u => u.id == t.user_id) setFields db.users }

/-- `POST /create-alternate` of `main.py`: 400 when the user id is unknown or
the user already owns 20 or more alternates (`len(user.alternates) >= 20`);
otherwise insert one `AlternateProfile` row for that user. -/
def create_alternate (db : DB) (user_id : Nat) (name : String)
    (icon : Option String) : ApiResult Nat :=
  match db.users.find? (fun u => u.id == user_id) with
  | none => .httpError 400 "User not found" db
  | some user =>
      if (db.alternates.filter (fun a => a.user_id == user.id)).length ≥ 20 then
        .httpError 400 "Maximum of 20 alternates allowed" db
      else
        let aid := freshId (db.alternates.map (·.id))
        .ok aid { db with alternates := db.alternates ++ [⟨aid, user_id, name, icon⟩] }

/-- `DELETE /delete-alternate` of `main.py`: 400 when the alternate id is
unknown; otherwise set the row's `user_id` to 0 (the row is not deleted). -/
def delete_alternate (db : DB) (alternate_id : Nat) : ApiResult String :=
  match db.alternates.find? (fun a => a.id == alternate_id) with
  | none => .httpError 400 "Alternate not found" db
  | some _ =>
      let unlink : AlternateRow → AlternateRow := fun a => { a with user_id := 0 }
      .ok "Alternate deleted"
        { db with alternates := updateFirst (fun a => a.id == alternate_id) unlink db.alternates }

/-- Python truthiness of an optional JSON integer: `None` and `0` are falsy. -/
def truthyNat (o : Option Nat) : Bool :=
  match o with
  | none => false
  | some n => n ≠ 0

/-- Python truthiness of an optional JSON string: `None` and `""` are falsy. -/
def truthyStr (o : Option String) : Bool :=
  match o with
  | none => false
  | some s => s ≠ ""

/-- `PUT /edit-message` of `main.py`: 400 when any of `message_id`, `user_id`,
`new_content` is missing or falsy, or when the message id is unknown; 403 when
the stored `Message.user_id` differs from the request's `user_id` field;
otherwise overwrite the content, set `is_edited`, and commit (the broadcast
that follows does not touch the database). -/
def edit_message (db : DB) (message_id user_id : Option Nat)
    (new_content : Option String) : ApiResult String :=
  if ¬ (truthyNat message_id ∧ truthyNat user_id ∧ truthyStr new_content) then
    .httpError 400 "Message ID, User ID, and new content are required" db
  else
    match db.messages.find? (fun m => some m.id == message_id) with
    | none => .httpError 400 "Message not found" db
    | some m =>
        if some m.user_id ≠ user_id then
          .httpError 403 "You can only edit your own messages" db
        else
          let setContent : MessageRow → MessageRow := fun x =>
            { x with content := new_content, is_edited := true }
          .ok ((new_content).getD "")
            { db with messages := updateFirst (fun x => some x.id == message_id) setContent db.messages }

/-- `DELETE /delete-message` of `main.py`: 400 when `message_id` or `user_id`
is missing or falsy, or when the message id is unknown; 403 when the stored
`Message.user_id` differs from the request's `user_id`; otherwise delete the
row and commit. -/
def delete_message (db : DB) (message_id user_id : Option Nat) : ApiResult String :=
  if ¬ (truthyNat message_id ∧ truthyNat user_id) then
    .httpError 400 "Message ID and User ID are required" db
  else
    match db.messages.find? (fun m => some m.id == message_id) with
    | none => .httpError 400 "Message not found" db
    | some m =>
        if some m.user_id ≠ user_id then
          .httpError 403 "You can only delete your own messages" db
        else
          .ok "Message deleted"
            { db with messages := db.messages.eraseP (fun x => some x.id == message_id) }

/-- `POST /send-private` of `main.py`: 400 on an unknown token, otherwise
insert a `PrivateMessage` row whose `sender_id` comes from the token row. -/
def send_private_message (db : DB) (token : String) (receiver_id : Nat)
    (content : String) (now : Nat) : ApiResult Nat :=
  match db.tokens.find? (fun t => t.token == token) with
  | none => .httpError 400 "Invalid token" db
  | some t =>
      let pid := freshId (db.private_messages.map (·.id))
      .ok pid { db with private_messages :=
        db.private_messages ++ [⟨pid, t.user_id, receiver_id, content, now, false⟩] }

/-- `PUT /edit-private` of `main.py`: 400 on a missing/falsy field or an
unknown pm id; 403 when the stored `sender_id` differs from the request's
`user_id`; otherwise overwrite the content, set `is_edited`, and commit. -/
def edit_private_message (db : DB) (pm_id user_id : Option Nat)
    (new_content : Option String) : ApiResult String :=
  if ¬ (truthyNat pm_id ∧ truthyNat user_id ∧ truthyStr new_content) then
    .httpError 400 "PM ID, User ID, and new content are required" db
  else
    match db.private_messages.find? (fun p => some p.id == pm_id) with
    | none => .httpError 400 "Private message not found" db
    | some p =>
        if some p.sender_id ≠ user_id then
          .httpError 403 "You can only edit your own private messages" db
        else
          let setContent : PrivateMessageRow → PrivateMessageRow := fun x =>
            { x with content := (new_content).getD x.content, is_edited := true }
          .ok ((new_content).getD "")
            { db with private_messages :=
                updateFirst (fun x => some x.id == pm_id) setContent db.private_messages }

/-- `DELETE /delete-private` of `main.py`: 400 on a missing/falsy field or an
unknown pm id; 403 when the stored `sender_id` differs from the request's
`user_id`; otherwise delete the row and commit. -/
def delete_private_message (db : DB) (pm_id user_id : Option Nat) : ApiResult String :=
  if ¬ (truthyNat pm_id ∧ truthyNat user_id) then
    .httpError 400 "PM ID and User ID are required" db
  else
    match db.private_messages.find? (fun p => some p.id == pm_id) with
    | none => .httpError 400 "Private message not found" db
    | some p =>
        if some p.sender_id ≠ user_id then
          .httpError 403 "You can only delete your own private messages" db
        else
          .ok "Private message deleted"
            { db with private_messages :=
                db.private_messages.eraseP (fun x => some x.id == pm_id) }

/-- One live WebSocket connection registered in `active_connections` for a
channel: `cid` identifies the socket, `sendOk` says whether `send_json` on it
succeeds (a closed or broken socket raises from `send_json`). -/
structure Conn where
  cid : Nat
  sendOk : Bool
deriving Repr, DecidableEq

/-- The broadcast loop of `websocket_endpoint` (`for conn in
active_connections[channel_id]: await conn.send_json(response)`).  There is
no `try`/`except` around the sends: the first failing send raises out of the
loop, so later connections receive nothing.  Returns the ids of the
connections that received the event and whether an exception escaped. -/
def wsDeliverLoop : List Conn → List Nat × Bool
  | [] => ([], false)
  | c :: rest =>
      if c.sendOk then
        let r := wsDeliverLoop rest
        (c.cid :: r.1, r.2)
      else ([], true)

/-- Outcome of handling one inbound WebSocket message in
`websocket_endpoint`. -/
inductive WsOutcome where
  /-- Invalid token or missing user: an error object is sent back to the
  sender only, nothing is persisted, and the loop continues. -/
  | errorReply : String → DB → WsOutcome
  /-- The message row was committed; `received` lists the connection ids that
  got the broadcast event and `raised` whether a send failure escaped the
  loop (terminating the handler). -/
  | sent : DB → List Nat → Bool → WsOutcome
  /-- The message row was committed but building the response crashed
  (alternate profile lookup on a missing row), so nothing was broadcast. -/
  | crashAfterCommit : DB → WsOutcome
deriving Repr, DecidableEq

/-- One iteration of the `while True` receive loop of `websocket_endpoint`
(`main.py`): look the token up (error reply on failure), look the user up
(error reply on failure), insert and commit the `Message` row, build the
response (when `alternate_id ≠ 0` this dereferences
`db.query(AlternateProfile)...first().name`, which raises on a missing row —
after the commit), then send the response to every connection registered for
the channel, sequentially and unguarded. -/
def handleWsMessage (db : DB) (channel_id : Nat) (conns : List Conn)
    (token : Option String) (content : Option String) (alternate_id : Nat)
    (is_action : Bool) (now : Nat) : WsOutcome :=
  match db.tokens.find? (fun t => some t.token == token) with
  | none => .errorReply "Invalid token" db
  | some te =>
      match db.users.find? (fun u => u.id == te.user_id) with
      | none => .errorReply "User not found" db
      | some _ =>
          let mid := freshId (db.messages.map (·.id))
          let row : MessageRow :=
            ⟨mid, te.user_id, none, channel_id, content, now, is_action, false, alternate_id⟩
          let db1 := { db with messages := db.messages ++ [row] }
          if alternate_id ≠ 0 ∧
              (db1.alternates.find? (fun a => a.id == alternate_id)).isNone then
            .crashAfterCommit db1
          else
            let d := wsDeliverLoop conns
            .sent db1 d.1 d.2

/-- A column declaration of a SQLAlchemy model, keeping only what the claims
about the schema need: the table, the column name, whether it is the primary
key, and whether it carries `unique=True`. -/
structure ColumnSpec where
  table : String
  colName : String
  primaryKey : Bool
  uniqueFlag : Bool
deriving Repr, DecidableEq

/-- Every column of every model of `main.py`, in source order, with its
`primary_key` and `unique` keyword arguments. -/
def mainSchema : List ColumnSpec :=
  [⟨"tokens", "id", true, false⟩,
   ⟨"tokens", "user_id", false, false⟩,
   ⟨"tokens", "token", false, true⟩,
   ⟨"users", "id", true, false⟩,
   ⟨"users", "username", false, true⟩,
   ⟨"users", "display_name", false, false⟩,
   ⟨"users", "password", false, false⟩,
   ⟨"users", "profile_picture", false, false⟩,
   ⟨"users", "last_active", false, false⟩,
   ⟨"users", "online", false, false⟩,
   ⟨"alternate_profiles", "id", true, false⟩,
   ⟨"alternate_profiles", "user_id", false, false⟩,
   ⟨"alternate_profiles", "name", false, false⟩,
   ⟨"alternate_profiles", "icon", false, false⟩,
   ⟨"servers", "id", true, false⟩,
   ⟨"servers", "name", false, false⟩,
   ⟨"channels", "id", true, false⟩,
   ⟨"channels", "name", false, false⟩,
   ⟨"channels", "server_id", false, false⟩,
   ⟨"messages", "id", true, false⟩,
   ⟨"messages", "user_id", false, false⟩,
   ⟨"messages", "server_id", false, false⟩,
   ⟨"messages", "channel_id", false, false⟩,
   ⟨"messages", "content", false, false⟩,
   ⟨"messages", "timestamp", false, false⟩,
   ⟨"messages", "is_action", false, false⟩,
   ⟨"messages", "is_edited", false, false⟩,
   ⟨"messages", "alternate_id", false, false⟩,
   ⟨"private_messages", "id", true, false⟩,
   ⟨"private_messages", "sender_id", false, false⟩,
   ⟨"private_messages", "receiver_id", false, false⟩,
   ⟨"private_messages", "content", false, false⟩,
   ⟨"private_messages", "timestamp", false, false⟩,
   ⟨"private_messages", "is_edited", false, false⟩]

end Chat

namespace Microblog

/-- Row of the `user` table of `server.py` (Flask). -/
structure FUser where
  id : Nat
  username : String
  password : String
deriving Repr, DecidableEq

/-- Row of the `post` table of `server.py` (Flask). -/
structure FPost where
  id : Nat
  content : String
  user_id : Nat
deriving Repr, DecidableEq

/-- The SQLite database of `server.py`. -/
structure FDB where
  users : List FUser
  posts : List FPost
deriving Repr, DecidableEq

/-- `POST /register` of `server.py`: store `bcrypt.generate_password_hash` of
the supplied password.  The hash function is an explicit parameter of the
model.  There is no duplicate-username application check. -/
def flask_register (hashGen : String → String) (db : FDB)
    (username password : String) : FDB × Nat :=
  let uid := Chat.freshId (db.users.map (·.id))
  ({ db with users := db.users ++ [⟨uid, username, hashGen password⟩] }, 201)

/-- `POST /login` of `server.py`: find the user by username; succeed exactly
when one exists and `bcrypt.check_password_hash(user.password, password)`
holds, else return 401 with detail `Invalid credentials`.  The checker is an
explicit parameter of the model; the returned value on success stands for the
created JWT bound to `user.id`. -/
def flask_login (hashCheck : String → String → Bool) (db : FDB)
    (username password : String) : Except (Nat × String) Nat :=
  match db.users.find? (fun u => u.username == username) with
  | none => .error (401, "Invalid credentials")
  | some u =>
      if hashCheck u.password password then .ok u.id
      else .error (401, "Invalid credentials")

/-- Every column of every model of `server.py`, with its `primary_key` and
`unique` keyword arguments. -/
def flaskSchema : List Chat.ColumnSpec :=
  [⟨"user", "id", true, false⟩,
   ⟨"user", "username", false, true⟩,
   ⟨"user", "password", false, false⟩,
   ⟨"post", "id", true, false⟩,
   ⟨"post", "content", false, false⟩,
   ⟨"post", "user_id", false, false⟩]

end Microblog

namespace Chat

/-! Helper lemmas about the row-update and broadcast primitives. -/

theorem updateFirst_length {α : Type} (p : α → Bool) (f : α → α) (l : List α) :
    (updateFirst p f l).length = l.length := by
  induction l with
  | nil => rfl
  | cons x xs ih => by_cases h : p x <;> simp [updateFirst, h, ih]

theorem updateFirst_fun_id {α : Type} (p : α → Bool) (l : List α) :
    updateFirst p (fun a => a) l = l := by
  induction l with
  | nil => rfl
  | cons x xs ih => by_cases h : p x <;> simp [updateFirst, h, ih]

theorem updateFirst_mem {α : Type} (p : α → Bool) (f : α → α) (l : List α)
    (x : α) (hx : x ∈ updateFirst p f l) :
    x ∈ l ∨ ∃ y, y ∈ l ∧ p y = true ∧ x = f y := by
  induction l with
  | nil => simp [updateFirst] at hx
  | cons a as ih =>
      simp only [updateFirst] at hx
      by_cases h : p a
      · rw [if_pos h] at hx
        rcases List.mem_cons.mp hx with h1 | h1
        · exact Or.inr ⟨a, List.mem_cons_self a as, h, h1⟩
        · exact Or.inl (List.mem_cons_of_mem a h1)
      · rw [if_neg h] at hx
        rcases List.mem_cons.mp hx with h1 | h1
        · exact Or.inl (h1 ▸ List.mem_cons_self a as)
        · rcases ih h1 with h2 | ⟨y, hy, hpy, hxy⟩
          · exact Or.inl (List.mem_cons_of_mem a h2)
          · exact Or.inr ⟨y, List.mem_cons_of_mem a hy, hpy, hxy⟩

theorem updateFirst_filter_length_le {α : Type} (p q : α → Bool) (f : α → α)
    (hq : ∀ x, q (f x) = false) (l : List α) :
    ((updateFirst p f l).filter q).length ≤ (l.filter q).length := by
  induction l with
  | nil => simp [updateFirst]
  | cons a as ih =>
      by_cases h : p a
      · simp only [updateFirst, if_pos h, List.filter_cons, hq a]
        simp only [Bool.false_eq_true, if_false]
        split
        · exact Nat.le_succ_of_le (Nat.le_refl _)
        · exact Nat.le_refl _
      · simp only [updateFirst, if_neg h, List.filter_cons]
        split
        · simpa using Nat.succ_le_succ ih
        · exact ih

theorem wsDeliverLoop_eq (conns : List Conn) :
    wsDeliverLoop conns =
      ((conns.takeWhile (fun c => c.sendOk)).map (fun c => c.cid),
       conns.any (fun c => !c.sendOk)) := by
  induction conns with
  | nil => rfl
  | cons c rest ih =>
      by_cases h : c.sendOk
      · simp [wsDeliverLoop, h, List.takeWhile_cons, ih]
      · simp [wsDeliverLoop, h, List.takeWhile_cons]

/-- The connection ids that received the broadcast, `[]` when no broadcast
happened. -/
def receivedIds : WsOutcome → List Nat
  | .sent _ r _ => r
  | _ => []

/-- Whether a send failure escaped the broadcast loop. -/
def deliveryRaised : WsOutcome → Bool
  | .sent _ _ b => b
  | _ => false

/-- Number of alternate profiles whose `user_id` column is `uid`. -/
def altCount (db : DB) (uid : Nat) : Nat :=
  (db.alternates.filter (fun a => a.user_id == uid)).length

/-- A small concrete database used to instantiate the theorems: one user
`alice` (id 1) with password `pw`, one token `tok1` for her, one server, one
channel, one channel message by her, one private message sent by her. -/
def sampleDB : DB :=
  ⟨[⟨1, some "alice", some "Alice", "pw", none, none, false⟩],
   [⟨1, 1, "tok1"⟩],
   [],
   [⟨1, "srv"⟩],
   [⟨1, "general", 1⟩],
   [⟨1, 1, none, 1, some "hello", 0, false, false, 0⟩],
   [⟨1, 1, 2, "psst", 0, false⟩]⟩

/-- C6 counterexample: the `token` column of the `tokens` table carries
`unique=True` in `main.py` (line 50), so a column other than `username` is
declared unique, contrary to the claim. -/
theorem token_column_unique_cex :
    (⟨"tokens", "token", false, true⟩ : ColumnSpec) ∈ mainSchema
    ∧ (⟨"tokens", "token", false, true⟩ : ColumnSpec).uniqueFlag = true
    ∧ (⟨"tokens", "token", false, true⟩ : ColumnSpec).colName ≠ "username" := by
  refine ⟨?_, rfl, by decide⟩
  decide

/-- C6 (amended): the columns declared `unique=True` are exactly
`tokens.token` and `users.username` in `main.py`, and `user.username` in
`server.py`; every other column has no uniqueness flag. -/
theorem unique_columns_exact :
    mainSchema.filter (fun c => c.uniqueFlag) =
      [⟨"tokens", "token", false, true⟩, ⟨"users", "username", false, true⟩]
    ∧ Microblog.flaskSchema.filter (fun c => c.uniqueFlag) =
      [⟨"user", "username", false, true⟩] := by
  constructor <;> rfl

/-- C7: `/create-server` succeeds for every request, inserting one `Server`
row (its request model carries only `name`, no token or identity), and
`/create-channel` inserts one `Channel` row exactly when the referenced
server id exists, returning 400 when it does not; neither handler performs
any caller-identity check (no identity input even exists in their models). -/
theorem server_channel_creation_unauthenticated (db : DB) (name : String)
    (server_id : Nat) :
    create_server db name =
      .ok (freshId (db.servers.map (fun s => s.id)))
        { db with servers :=
            db.servers ++ [⟨freshId (db.servers.map (fun s => s.id)), name⟩] }
    ∧ (∀ s, db.servers.find? (fun x => x.id == server_id) = some s →
        create_channel db server_id name =
          .ok (freshId (db.channels.map (fun c => c.id)))
            { db with channels :=
                db.channels ++ [⟨freshId (db.channels.map (fun c => c.id)), name, server_id⟩] })
    ∧ (db.servers.find? (fun x => x.id == server_id) = none →
        create_channel db server_id name = .httpError 400 "Server not found" db) := by
  refine ⟨rfl, ?_, ?_⟩
  · intro s hs
    simp only [create_channel, hs]
  · intro hn
    simp only [create_channel, hn]

theorem server_channel_creation_witness :
    create_server sampleDB "x" =
      .ok 2 { sampleDB with servers := sampleDB.servers ++ [⟨2, "x"⟩] }
    ∧ create_channel sampleDB 1 "x" =
      .ok 2 { sampleDB with channels := sampleDB.channels ++ [⟨2, "x", 1⟩] } := by
  have h := server_channel_creation_unauthenticated sampleDB "x" 1
  exact ⟨h.1, h.2.1 ⟨1, "srv"⟩ rfl⟩

/-- C4: the chat service stores and compares passwords in plaintext:
`/register` (on a free username) stores the request password string unchanged
in the new `User` row, and `/login` succeeds exactly when some user row has
both the given username and a `password` column equal to the given password
string; the Flask microblog instead stores `bcrypt.generate_password_hash`
output and compares via `bcrypt.check_password_hash` (both modelled as
explicit function parameters). -/
theorem plaintext_password_storage_and_check (db : DB)
    (username password display_name : String) (now : Nat) (tok : String)
    (fdb : Microblog.FDB) (hashGen : String → String)
    (hashCheck : String → String → Bool)
    (hfree : db.users.find? (fun u => u.username == some username) = none) :
    register db username password display_name =
      .ok (freshId (db.users.map (fun u => u.id)))
        { db with users := db.users ++
            [⟨freshId (db.users.map (fun u => u.id)), some username,
              some display_name, password, none, none, false⟩] }
    ∧ ((∃ t db2, login db username password now tok = .ok t db2) ↔
        ∃ u ∈ db.users, u.username = some username ∧ u.password = password)
    ∧ (Microblog.flask_register hashGen fdb username password).1.users =
        fdb.users ++
          [⟨freshId (fdb.users.map (fun u => u.id)), username, hashGen password⟩]
    ∧ ((∃ uid, Microblog.flask_login hashCheck fdb username password = .ok uid) ↔
        ∃ u, fdb.users.find? (fun x => x.username == username) = some u
          ∧ hashCheck u.password password = true) := by
  refine ⟨by simp only [register, hfree], ?_, rfl, ?_⟩
  · cases hfind : db.users.find?
        (fun u => u.username == some username && u.password == password) with
    | none =>
        simp only [login, hfind]
        constructor
        · rintro ⟨t, db2, h⟩
          cases h
        · rintro ⟨u, hu, h1, h2⟩
          have := List.find?_eq_none.mp hfind u hu
          simp [h1, h2] at this
    | some u =>
        simp only [login, hfind]
        constructor
        · intro _
          refine ⟨u, List.mem_of_find?_eq_some hfind, ?_, ?_⟩
          · have := List.find?_some hfind
            simp only [Bool.and_eq_true, beq_iff_eq] at this
            exact this.1
          · have := List.find?_some hfind
            simp only [Bool.and_eq_true, beq_iff_eq] at this
            exact this.2
        · intro _
          exact ⟨tok, _, rfl⟩
  · cases hfind : fdb.users.find? (fun x => x.username == username) with
    | none =>
        simp only [Microblog.flask_login, hfind]
        constructor
        · rintro ⟨uid, h⟩
          cases h
        · rintro ⟨u, h, _⟩
          cases h
    | some u =>
        simp only [Microblog.flask_login, hfind]
        by_cases hchk : hashCheck u.password password
        · simp only [hchk, if_true]
          constructor
          · intro _
            exact ⟨u, rfl, hchk⟩
          · intro _
            exact ⟨u.id, rfl⟩
        · simp only [hchk, if_false]
          constructor
          · rintro ⟨uid, h⟩
            cases h
          · rintro ⟨v, hv, hc⟩
            cases hv
            exact absurd hc (by simpa using hchk)

theorem plaintext_password_witness :
    register sampleDB "bob" "secret" "Bob" =
      .ok 2 { sampleDB with users := sampleDB.users ++
        [⟨2, some "bob", some "Bob", "secret", none, none, false⟩] }
    ∧ (Microblog.flask_register (fun s => String.append s "#h") ⟨[], []⟩ "bob" "secret").1.users
        = [⟨1, "bob", "secret#h"⟩] := by
  have h := plaintext_password_storage_and_check sampleDB "bob" "secret" "Bob" 9 "tk"
    ⟨[], []⟩ (fun s => String.append s "#h") (fun a b => a == b) rfl
  exact ⟨h.1, by simpa using h.2.2.1⟩

/-- C5: a successful `/login` appends exactly one new `Token` row, bound to
the authenticated user's id and carrying the generated token string (the
activity update touches only the `users` table); `/logout` with a valid token
deletes that token row and sets the owner's `online` flag to `False`;
`/logout` with a token matching no row returns 400 with the database
unchanged. -/
theorem login_logout_token_lifecycle (db : DB)
    (username password tok t2 : String) (now : Nat) :
    (∀ u, db.users.find?
        (fun x => x.username == some username && x.password == password) = some u →
      login db username password now tok =
        .ok tok { update_user_activity db username now with
          tokens := db.tokens ++ [⟨freshId (db.tokens.map (fun x => x.id)), u.id, tok⟩] })
    ∧ (∀ t u, db.tokens.find? (fun x => x.token == t2) = some t →
        db.users.find? (fun x => x.id == t.user_id) = some u →
        logout db t2 =
          .ok "Logged out"
            { db with
              tokens := db.tokens.eraseP (fun x => x.token == t2),
              users := updateFirst (fun x => x.id == t.user_id)
                         (fun x => { x with online := false }) db.users })
    ∧ (db.tokens.find? (fun x => x.token == t2) = none →
        logout db t2 = .httpError 400 "Invalid token" db) := by
  refine ⟨?_, ?_, ?_⟩
  · intro u hu
    simp only [login, hu]
    rfl
  · intro t u ht hu
    simp only [logout, ht, hu]
  · intro hn
    simp only [logout, hn]

theorem login_logout_witness :
    login sampleDB "alice" "pw" 7 "tk2" =
      .ok "tk2"
        ⟨[⟨1, some "alice", some "Alice", "pw", none, some 7, true⟩],
         [⟨1, 1, "tok1"⟩, ⟨2, 1, "tk2"⟩], [], [⟨1, "srv"⟩], [⟨1, "general", 1⟩],
         [⟨1, 1, none, 1, some "hello", 0, false, false, 0⟩],
         [⟨1, 1, 2, "psst", 0, false⟩]⟩
    ∧ logout sampleDB "tok1" =
      .ok "Logged out"
        ⟨[⟨1, some "alice", some "Alice", "pw", none, none, false⟩],
         [], [], [⟨1, "srv"⟩], [⟨1, "general", 1⟩],
         [⟨1, 1, none, 1, some "hello", 0, false, false, 0⟩],
         [⟨1, 1, 2, "psst", 0, false⟩]⟩
    ∧ logout sampleDB "zzz" = .httpError 400 "Invalid token" sampleDB := by
  have h1 := login_logout_token_lifecycle sampleDB "alice" "pw" "tk2" "tok1" 7
  have h2 := login_logout_token_lifecycle sampleDB "alice" "pw" "tk2" "zzz" 7
  refine ⟨?_, ?_, h2.2.2 rfl⟩
  · exact h1.1 ⟨1, some "alice", some "Alice", "pw", none, none, false⟩ rfl
  · exact h1.2.1 ⟨1, 1, "tok1"⟩ ⟨1, some "alice", some "Alice", "pw", none, none, false⟩ rfl rfl

/-- C10: with a valid token, calling `/update-profile` with both optional
parameters omitted (defaulting to `None`) overwrites the user's `username`
and `display_name` columns with `None`, because each guard compares against
the empty string only; passing the empty string explicitly for both leaves
the row — and the whole database — unchanged. -/
theorem update_profile_none_overwrite (db : DB) (token : String)
    (t : TokenRow) (u : UserRow)
    (ht : db.tokens.find? (fun x => x.token == token) = some t)
    (hu : db.users.find? (fun x => x.id == t.user_id) = some u) :
    update_profile db token none none =
      .ok "Profile updated"
        { db with users := updateFirst (fun x => x.id == t.user_id)
                             (fun x => { x with username := none, display_name := none })
                             db.users }
    ∧ update_profile db token (some "") (some "") = .ok "Profile updated" db := by
  constructor
  · simp only [update_profile, ht, hu]
    rfl
  · have hid : updateFirst (fun x => x.id == t.user_id) (fun a => a) db.users = db.users :=
      updateFirst_fun_id _ _
    simp only [update_profile, ht, hu]
    exact congrArg (fun l => ApiResult.ok "Profile updated" { db with users := l }) hid

theorem update_profile_none_witness :
    update_profile sampleDB "tok1" none none =
      .ok "Profile updated"
        ⟨[⟨1, none, none, "pw", none, none, false⟩],
         [⟨1, 1, "tok1"⟩], [], [⟨1, "srv"⟩], [⟨1, "general", 1⟩],
         [⟨1, 1, none, 1, some "hello", 0, false, false, 0⟩],
         [⟨1, 1, 2, "psst", 0, false⟩]⟩
    ∧ update_profile sampleDB "tok1" (some "") (some "") =
      .ok "Profile updated" sampleDB := by
  have h := update_profile_none_overwrite sampleDB "tok1" ⟨1, 1, "tok1"⟩
    ⟨1, some "alice", some "Alice", "pw", none, none, false⟩ rfl rfl
  exact ⟨h.1, h.2⟩

/-- A variant of the sample database holding one alternate profile (id 5)
owned by user 1. -/
def sampleDB2 : DB := { sampleDB with alternates := [⟨5, 1, "alt", none⟩] }

/-- C9: `/delete-alternate` on an existing alternate never removes the row:
it only sets the matched row's `user_id` to 0; the table keeps the same
number of rows, every row keeps its `id`, `name`, and `icon`, and every other
table is untouched (visible in the `db with alternates := _` shape of the
committed state). -/
theorem delete_alternate_preserves_rows (db : DB) (aid : Nat)
    (a : AlternateRow)
    (hfind : db.alternates.find? (fun x => x.id == aid) = some a) :
    delete_alternate db aid =
      .ok "Alternate deleted"
        { db with alternates := updateFirst (fun x => x.id == aid)
                                  (fun x => { x with user_id := 0 }) db.alternates }
    ∧ (updateFirst (fun x => x.id == aid)
          (fun x => { x with user_id := 0 }) db.alternates).length
        = db.alternates.length
    ∧ ∀ x ∈ updateFirst (fun x => x.id == aid)
        (fun x => { x with user_id := 0 }) db.alternates,
        ∃ y ∈ db.alternates, x.id = y.id ∧ x.name = y.name ∧ x.icon = y.icon := by
  refine ⟨?_, updateFirst_length _ _ _, ?_⟩
  · simp only [delete_alternate, hfind]
  · intro x hx
    rcases updateFirst_mem _ _ _ _ hx with h | ⟨y, hy, _, hxy⟩
    · exact ⟨x, h, rfl, rfl, rfl⟩
    · exact ⟨y, hy, by rw [hxy], by rw [hxy], by rw [hxy]⟩

/-- C3 counterexample: `/get-self` with a token matching no `Token` row does
not return a 400/401/403/404 — `first()` yields `None` and the `.user_id`
attribute access raises an unhandled `AttributeError`, surfacing as an
unhandled server error. -/
theorem get_self_unknown_token_cex :
    get_self sampleDB "nope" =
      .crash "AttributeError: NoneType has no attribute user_id" sampleDB
    ∧ ∀ code detail d, get_self sampleDB "nope" ≠ .httpError code detail d := by
  refine ⟨rfl, ?_⟩
  intro code detail d h
  rw [show get_self sampleDB "nope" =
      ApiResult.crash "AttributeError: NoneType has no attribute user_id" sampleDB from rfl] at h
  cases h

/-- C3 (amended): on a missing or invalid row most handlers do return a 4xx
with a short string detail — `/logout`, `/create-channel` and `/send-private`
return 400, and the Flask `/login` returns 401 — but `/get-self` and
`/update-profile` are exceptions: given a token with no matching `Token` row
they dereference `first().user_id` and raise an unhandled `AttributeError`
instead of returning an HTTP error. -/
theorem missing_row_error_handling (db : DB) (token : String)
    (fdb : Microblog.FDB) (hashCheck : String → String → Bool)
    (username password : String)
    (hnone : db.tokens.find? (fun t => t.token == token) = none)
    (hfu : fdb.users.find? (fun u => u.username == username) = none) :
    get_self db token =
      .crash "AttributeError: NoneType has no attribute user_id" db
    ∧ (∀ un dn, update_profile db token un dn =
        .crash "AttributeError: NoneType has no attribute user_id" db)
    ∧ logout db token = .httpError 400 "Invalid token" db
    ∧ (∀ sid name2, db.servers.find? (fun s => s.id == sid) = none →
        create_channel db sid name2 = .httpError 400 "Server not found" db)
    ∧ (∀ rid cont now, send_private_message db token rid cont now =
        .httpError 400 "Invalid token" db)
    ∧ Microblog.flask_login hashCheck fdb username password =
        .error (401, "Invalid credentials") := by
  refine ⟨?_, ?_, ?_, ?_, ?_, ?_⟩
  · simp only [get_self, hnone]
  · intro un dn
    simp only [update_profile, hnone]
  · simp only [logout, hnone]
  · intro sid name2 hs
    simp only [create_channel, hs]
  · intro rid cont now
    simp only [send_private_message, hnone]
  · simp only [Microblog.flask_login, hfu]

theorem missing_row_error_handling_witness :
    update_profile sampleDB "nope" (some "eve") none =
      .crash "AttributeError: NoneType has no attribute user_id" sampleDB
    ∧ logout sampleDB "nope" = .httpError 400 "Invalid token" sampleDB := by
  have h := missing_row_error_handling sampleDB "nope" ⟨[], []⟩
    (fun a b => a == b) "bob" "pw" rfl rfl
  exact ⟨h.2.1 (some "eve") none, h.2.2.1⟩

/-- C1 counterexample: channel 1 has connection 1 (whose send fails) and
connection 2 (whose send works) registered; a valid inbound message is
committed, but connection 2 receives nothing and the send failure escapes the
loop — so failures are not swallowed and do interrupt delivery to the
remaining connections, contrary to the claim. -/
theorem ws_swallowed_failure_cex :
    handleWsMessage sampleDB 1 [⟨1, false⟩, ⟨2, true⟩] (some "tok1") (some "hi") 0 false 5 =
      .sent
        { sampleDB with messages :=
            sampleDB.messages ++ [⟨2, 1, none, 1, some "hi", 5, false, false, 0⟩] }
        [] true
    ∧ (⟨2, true⟩ : Conn) ∈ ([⟨1, false⟩, ⟨2, true⟩] : List Conn)
    ∧ 2 ∉ ([] : List Nat) := by
  exact ⟨rfl, by decide, by decide⟩

/-- C1 (amended): for every inbound WebSocket message carrying a valid token
(whose user exists, with an alternate id of 0 or one that resolves), the
handler first commits exactly one new `Message` row and then sends the JSON
event sequentially over the connections currently registered for the channel;
the sends are unguarded, so exactly the connections before the first failing
send receive the event, and a send failure raises out of the loop, skipping
all remaining connections. -/
theorem ws_commit_then_sequential_send (db : DB) (channel_id now : Nat)
    (conns : List Conn) (tok : String) (content : Option String)
    (alternate_id : Nat) (is_action : Bool) (te : TokenRow) (u : UserRow)
    (ht : db.tokens.find? (fun t => t.token == tok) = some te)
    (hu : db.users.find? (fun x => x.id == te.user_id) = some u)
    (halt : alternate_id = 0 ∨
      (db.alternates.find? (fun a => a.id == alternate_id)).isSome = true) :
    handleWsMessage db channel_id conns (some tok) content alternate_id is_action now =
      .sent
        { db with messages := db.messages ++
            [⟨freshId (db.messages.map (fun m => m.id)), te.user_id, none,
              channel_id, content, now, is_action, false, alternate_id⟩] }
        ((conns.takeWhile (fun c => c.sendOk)).map (fun c => c.cid))
        (conns.any (fun c => !c.sendOk)) := by
  cases hfa : db.alternates.find? (fun a => a.id == alternate_id) with
  | none =>
      have h0 : alternate_id = 0 := by
        rcases halt with h | h
        · exact h
        · rw [hfa] at h
          simp at h
      subst h0
      simp [handleWsMessage, ht, hu, wsDeliverLoop_eq]
  | some a1 =>
      simp [handleWsMessage, ht, hu, hfa, wsDeliverLoop_eq]

theorem ws_commit_then_sequential_send_witness :
    handleWsMessage sampleDB 1 [⟨1, true⟩, ⟨2, false⟩, ⟨3, true⟩]
        (some "tok1") (some "yo") 0 false 5 =
      .sent
        { sampleDB with messages :=
            sampleDB.messages ++ [⟨2, 1, none, 1, some "yo", 5, false, false, 0⟩] }
        [1] true := by
  have h := ws_commit_then_sequential_send sampleDB 1 5
    [⟨1, true⟩, ⟨2, false⟩, ⟨3, true⟩] "tok1" (some "yo") 0 false
    ⟨1, 1, "tok1"⟩ ⟨1, some "alice", some "Alice", "pw", none, none, false⟩
    rfl rfl (Or.inl rfl)
  simpa using h

/-- C2: the edit/delete handlers for channel messages and private messages
check ownership by comparing the stored sender id with the request body's
`user_id` field — no session token is read anywhere in these handlers (their
models take no token input): with the required fields present and the row
found, each returns 403 exactly when the supplied `user_id` differs from the
stored sender id, and performs the mutation otherwise. -/
theorem ownership_check_uses_request_user_id (db : DB) (mid uid pid : Nat)
    (c : String) (m : MessageRow) (p : PrivateMessageRow)
    (hmid : mid ≠ 0) (huid : uid ≠ 0) (hpid : pid ≠ 0) (hc : c ≠ "")
    (hm : db.messages.find? (fun x => x.id == mid) = some m)
    (hp : db.private_messages.find? (fun x => x.id == pid) = some p) :
    (m.user_id ≠ uid →
      edit_message db (some mid) (some uid) (some c) =
        .httpError 403 "You can only edit your own messages" db
      ∧ delete_message db (some mid) (some uid) =
        .httpError 403 "You can only delete your own messages" db)
    ∧ (m.user_id = uid →
      edit_message db (some mid) (some uid) (some c) =
        .ok c { db with messages := updateFirst (fun x => x.id == mid) (fun x => { x with content := some c, is_edited := true }) db.messages }
      ∧ delete_message db (some mid) (some uid) =
        .ok "Message deleted"
          { db with messages := db.messages.eraseP (fun x => x.id == mid) })
    ∧ (p.sender_id ≠ uid →
      edit_private_message db (some pid) (some uid) (some c) =
        .httpError 403 "You can only edit your own private messages" db
      ∧ delete_private_message db (some pid) (some uid) =
        .httpError 403 "You can only delete your own private messages" db)
    ∧ (p.sender_id = uid →
      edit_private_message db (some pid) (some uid) (some c) =
        .ok c { db with private_messages := updateFirst (fun x => x.id == pid) (fun x => { x with content := c, is_edited := true }) db.private_messages }
      ∧ delete_private_message db (some pid) (some uid) =
        .ok "Private message deleted"
          { db with private_messages :=
              db.private_messages.eraseP (fun x => x.id == pid) }) := by
  refine ⟨?_, ?_, ?_, ?_⟩
  · intro hne
    constructor
    · simp [edit_message, truthyNat, truthyStr, hmid, huid, hc, hm, hne]
    · simp [delete_message, truthyNat, hmid, huid, hm, hne]
  · intro heqid
    constructor
    · simp [edit_message, truthyNat, truthyStr, hmid, huid, hc, hm, heqid]
    · simp [delete_message, truthyNat, hmid, huid, hm, heqid]
  · intro hne
    constructor
    · simp [edit_private_message, truthyNat, truthyStr, hpid, huid, hc, hp, hne]
    · simp [delete_private_message, truthyNat, hpid, huid, hp, hne]
  · intro heqid
    constructor
    · simp [edit_private_message, truthyNat, truthyStr, hpid, huid, hc, hp, heqid]
    · simp [delete_private_message, truthyNat, hpid, huid, hp, heqid]

theorem ownership_check_witness :
    edit_message sampleDB (some 1) (some 9) (some "x") =
      .httpError 403 "You can only edit your own messages" sampleDB
    ∧ delete_message sampleDB (some 1) (some 1) =
      .ok "Message deleted" { sampleDB with messages := [] }
    ∧ edit_private_message sampleDB (some 1) (some 9) (some "x") =
      .httpError 403 "You can only edit your own private messages" sampleDB
    ∧ delete_private_message sampleDB (some 1) (some 1) =
      .ok "Private message deleted" { sampleDB with private_messages := [] } := by
  have h9 := ownership_check_uses_request_user_id sampleDB 1 9 1 "x"
    ⟨1, 1, none, 1, some "hello", 0, false, false, 0⟩ ⟨1, 1, 2, "psst", 0, false⟩
    (by decide) (by decide) (by decide) (by decide) rfl rfl
  have h1 := ownership_check_uses_request_user_id sampleDB 1 1 1 "x"
    ⟨1, 1, none, 1, some "hello", 0, false, false, 0⟩ ⟨1, 1, 2, "psst", 0, false⟩
    (by decide) (by decide) (by decide) (by decide) rfl rfl
  refine ⟨(h9.1 (by decide)).1, ?_, (h9.2.2.1 (by decide)).1, ?_⟩
  · have := (h1.2.1 rfl).2
    simpa using this
  · have := (h1.2.2.2 rfl).2
    simpa using this

/-- C8: `/create-alternate` returns 400 without adding a row whenever the
user already has 20 or more alternates, and otherwise inserts exactly one row
for that user; `/delete-alternate` — the only other handler writing the
alternates table — reassigns a row to user id 0 and never increases the
alternate count of any nonzero user id; and `/register` assigns only nonzero
user ids, so no user row ever has id 0 and every user's alternate count stays
at most 20. -/
theorem alternate_cap_twenty (db : DB) (user_id aid : Nat) (name : String)
    (icon : Option String) (u : UserRow)
    (hfind : db.users.find? (fun x => x.id == user_id) = some u) :
    (20 ≤ altCount db u.id →
      create_alternate db user_id name icon =
        .httpError 400 "Maximum of 20 alternates allowed" db)
    ∧ (∀ newAid db2, create_alternate db user_id name icon = .ok newAid db2 →
        altCount db u.id < 20
        ∧ altCount db2 u.id = altCount db u.id + 1
        ∧ db2.alternates.length = db.alternates.length + 1
        ∧ (∀ v, v ≠ u.id → altCount db2 v = altCount db v))
    ∧ (∀ db2 r v, delete_alternate db aid = .ok r db2 → v ≠ 0 →
        altCount db2 v ≤ altCount db v)
    ∧ (∀ dbx un pw dn uid db2, register dbx un pw dn = .ok uid db2 →
        (∀ w ∈ dbx.users, w.id ≠ 0) → ∀ w ∈ db2.users, w.id ≠ 0) := by
  have hid : u.id = user_id := by
    have := List.find?_some hfind
    simpa using this
  refine ⟨?_, ?_, ?_, ?_⟩
  · intro h20
    simp only [altCount] at h20
    simp only [create_alternate, hfind, ge_iff_le]
    rw [if_pos h20]
  · intro newAid db2 heq
    simp only [create_alternate, hfind, ge_iff_le] at heq
    by_cases h20 : 20 ≤ (db.alternates.filter (fun a => a.user_id == u.id)).length
    · rw [if_pos h20] at heq
      cases heq
    · rw [if_neg h20] at heq
      cases heq
      refine ⟨?_, ?_, ?_, ?_⟩
      · exact lt_of_not_le (fun h => h20 (by simpa [altCount] using h))
      · simp [altCount, List.filter_append, hid]
      · simp
      · intro v hv
        have huv : ¬ user_id = v := by
          rw [← hid]
          exact Ne.symm hv
        simp [altCount, List.filter_append, huv]
  · intro db2 r v heq hv
    cases hf : db.alternates.find? (fun x => x.id == aid) with
    | none =>
        simp only [delete_alternate, hf] at heq
        cases heq
    | some a0 =>
        simp only [delete_alternate, hf] at heq
        cases heq
        simp only [altCount]
        exact updateFirst_filter_length_le _ _ _
          (fun x => by simp [Ne.symm hv]) db.alternates
  · intro dbx un pw dn uid db2 heq hprev w hw
    cases hfr : dbx.users.find? (fun x => x.username == some un) with
    | some _ =>
        simp only [register, hfr] at heq
        cases heq
    | none =>
        simp only [register, hfr] at heq
        cases heq
        rcases List.mem_append.mp hw with h | h
        · exact hprev w h
        · have hw2 : w.id = freshId (dbx.users.map (fun x => x.id)) := by
            simp only [List.mem_singleton] at h
            rw [h]
          rw [hw2]
          exact Nat.succ_ne_zero _

theorem alternate_cap_witness :
    create_alternate sampleDB2 1 "alt2" none =
      .ok 6 { sampleDB2 with alternates := sampleDB2.alternates ++ [⟨6, 1, "alt2", none⟩] }
    ∧ altCount { sampleDB2 with alternates := sampleDB2.alternates ++ [⟨6, 1, "alt2", none⟩] } 1 = 2 := by
  have h := alternate_cap_twenty sampleDB2 1 5 "alt2" none
    ⟨1, some "alice", some "Alice", "pw", none, none, false⟩ rfl
  have h2 := h.2.1 6
    { sampleDB2 with alternates := sampleDB2.alternates ++ [⟨6, 1, "alt2", none⟩] } rfl
  exact ⟨rfl, h2.2.1⟩

theorem delete_alternate_witness :
    delete_alternate sampleDB2 5 =
      .ok "Alternate deleted" { sampleDB2 with alternates := [⟨5, 0, "alt", none⟩] }
    ∧ ([(⟨5, 0, "alt", none⟩ : AlternateRow)]).length = sampleDB2.alternates.length := by
  have h := delete_alternate_preserves_rows sampleDB2 5 ⟨5, 1, "alt", none⟩ rfl
  exact ⟨h.1, rfl⟩

end Chat
